import Mathlib

/-!
Verification of `zenodo_uploader.py` (NSLS-II/conda-pack-template).

The script is a sequential orchestration of HTTP calls against the Zenodo
REST API.  We shallowly embed it as pure Lean functions:

* JSON values are the inductive `Json`; Python `d[k]` indexing is
  `Json.index`, which fails with a `KeyError`/`TypeError` like Python.
* Python string primitives used by the script (`str.replace`, `str.split`,
  `str.join`, `str()` conversion in f-strings) are modelled over `List Char`
  (`pyReplace`, `pySplit`, `pyJoin`, `Json.pyStr`) with Python's semantics:
  `replace` rewrites every non-overlapping occurrence left to right,
  `split` keeps empty fields.
* Each `requests` call is a value of the inductive `Call` recording the
  call site, URL and query parameters; the remote service is a function
  `Env : Call → HttpResponse`.  `requests.Response.raise_for_status` is
  `raise_for_status`, failing exactly on status ≥ 400.
* Each Python function becomes a Lean function returning the list of
  `Call`s it issued (in order) together with `Except PyError result`;
  `print` side effects are dropped, except that evaluating an f-string
  argument still resolves names (relevant for `add_meta_data`, whose
  progress message reads the module-global `filename`).
-/

/-- Errors a run of the script can raise (the exceptions Python would). -/
inductive PyError
  | httpError (status : Nat)
  | keyError (key : String)
  | typeError
  | attributeError
  | fileNotFoundError (path : String)
  | nameError (name : String)
deriving DecidableEq, Repr

/-- JSON values, as returned by `Response.json()` and loaded from YAML.
Objects are association lists looked up by first match. -/
inductive Json
  | null
  | bool (b : Bool)
  | num (n : Int)
  | str (s : String)
  | arr (items : List Json)
  | obj (fields : List (String × Json))
deriving Repr

/-- `l.startsWith p`: `p` is an initial run of `l`. -/
def listStartsWith : List Char → List Char → Bool
  | [], _ => true
  | _ :: _, [] => false
  | a :: as, b :: bs => a = b && listStartsWith as bs

/-- Occurrence-by-occurrence replacement on character lists: Python
`str.replace` semantics (leftmost, non-overlapping, replaces all).  The
`Nat` argument is recursion fuel, instantiated with the list2s length:
every step consumes at least one character, so the `0, l` fallback is
never reached. -/
def listReplace (pat rep : List Char) : Nat → List Char → List Char
  | _, [] => []
  | 0, l => l
  | fuel + 1, c :: rest =>
    if listStartsWith pat (c :: rest) && !pat.isEmpty then
      rep ++ listReplace pat rep fuel (rest.drop (pat.length - 1))
    else
      c :: listReplace pat rep fuel rest

/-- Python `s.replace(pat, rep)` for a nonempty `pat`. -/
def pyReplace (s pat rep : String) : String :=
  ⟨listReplace pat.data rep.data s.data.length s.data⟩

/-- Splitting on a nonempty separator, Python `str.split(sep)` semantics
(keeps empty fields; `[""]` on the empty string).  Fuel as in
`listReplace`. -/
def listSplit (sep : List Char) : Nat → List Char → List (List Char)
  | _, [] => [[]]
  | 0, l => [l]
  | fuel + 1, c :: rest =>
    if listStartsWith sep (c :: rest) && !sep.isEmpty then
      [] :: listSplit sep fuel (rest.drop (sep.length - 1))
    else
      match listSplit sep fuel rest with
      | [] => [[c]]
      | g :: gs => (c :: g) :: gs

/-- Python `s.split(sep)` for a nonempty `sep`. -/
def pySplit (s sep : String) : List String :=
  (listSplit sep.data s.data.length s.data).map (fun l => ⟨l⟩)

/-- Python `sep.join(parts)`. -/
def pyJoin (sep : String) : List String → String
  | [] => ""
  | [a] => a
  | a :: rest => a ++ sep ++ pyJoin sep rest

/-- Python `repr` of a JSON-shaped value (used by `str` on lists/dicts).
String escaping inside `repr` is not modelled (no reachable call needs it). -/
def Json.pyRepr : Json → String
  | .null => "None"
  | .bool true => "True"
  | .bool false => "False"
  | .num n => toString n
  | .str s => "'" ++ s ++ "'"
  | .arr items => "[" ++ pyJoin ", " (items.attach.map (fun x => x.1.pyRepr)) ++ "]"
  | .obj fields =>
      "\x7b" ++
        pyJoin ", "
          (fields.attach.map (fun x => "'" ++ x.1.1 ++ "': " ++ x.1.2.pyRepr)) ++
      "\x7d"
decreasing_by
  all_goals simp_wf
  · have := List.sizeOf_lt_of_mem x.2
    omega
  · have h1 : sizeOf x.1 < sizeOf fields := List.sizeOf_lt_of_mem x.2
    have h2 : sizeOf x.1.2 < sizeOf x.1 := by
      rcases x with ⟨⟨a, b⟩, hx⟩; simp
    omega

/-- Python `str(x)`, as applied by f-string interpolation (`str` equals
`repr` on every JSON-shaped value except plain strings). -/
def Json.pyStr : Json → String
  | .null => "None"
  | .bool true => "True"
  | .bool false => "False"
  | .num n => toString n
  | .str s => s
  | .arr items => (Json.arr items).pyRepr
  | .obj fields => (Json.obj fields).pyRepr

/-- First-match lookup in a JSON object2s fields. -/
def Json.lookupField : List (String × Json) → String → Except PyError Json
  | [], key => .error (.keyError key)
  | (k, v) :: rest, key => if k = key then .ok v else Json.lookupField rest key

/-- Python `d[k]` on a JSON value: `KeyError` when absent, `TypeError`
when the value is not a dict. -/
def Json.index : Json → String → Except PyError Json
  | .obj fields, key => Json.lookupField fields key
  | _, _ => .error .typeError

/-- A JSON value used where Python needs a `str` (`.replace`, `.split`):
anything else raises `AttributeError`. -/
def Json.asStr : Json → Except PyError String
  | .str s => .ok s
  | _ => .error .attributeError

/-- A JSON value iterated as a list; anything else raises `TypeError`. -/
def Json.asArr : Json → Except PyError (List Json)
  | .arr items => .ok items
  | _ => .error .typeError

/-- Python truthiness of a JSON value (`if not deposition_id:`). -/
def Json.truthy : Json → Bool
  | .null => false
  | .bool b => b
  | .num n => n != 0
  | .str s => s != ""
  | .arr items => !items.isEmpty
  | .obj fields => !fields.isEmpty

/-- Truthiness of the possibly-`None` deposition id returned by the search. -/
def truthyOptJson : Option Json → Bool
  | none => false
  | some j => j.truthy

/-- An HTTP response: status code and decoded JSON body.  (`Response.json()`
is modelled as always yielding a JSON document.) -/
structure HttpResponse where
  status : Nat
  body : Json

/-- One `requests` call, tagged by call site, with the data the script puts
in it.  The search GET is recorded as its base URL plus the two query
parameters the script url-encodes into it; the metadata PUT records the
document that `json.dumps` would serialize. -/
inductive Call
  | searchGet (server : String) (q : String) (sort : String)
  | newversionPost (url : String) (params : List (String × String))
  | fetchGet (url : String) (params : List (String × String))
  | createPost (url : String) (params : List (String × String))
  | uploadPut (url : String) (params : List (String × String))
  | metadataPut (url : String) (params : List (String × String)) (data : Json)
  | publishPost (url : String) (params : List (String × String))

/-- The remote service: a response for every possible call. -/
def Env := Call → HttpResponse

/-- `requests.Response.raise_for_status()`: `HTTPError` carrying the status
exactly when the status is ≥ 400. -/
def raise_for_status (r : HttpResponse) : Except PyError Unit :=
  if 400 ≤ r.status then .error (.httpError r.status) else .ok ()

/-- The default `zenodo_server` argument of every function in the script. -/
def defaultServer : String := "https://sandbox.zenodo.org/api/"

/-- The query string `search_for_deposition` composes (lines 17-23).
Python truthiness guards the `owners` clause, so an empty owner string is
skipped like `None`.  The only caller passes `creators` as a generator,
which is truthy even when it yields nothing, so `creators` is modelled as
`Option (List String)` with the clause emitted whenever it is `some`. -/
def build_search_query (title : String) (owner : Option String)
    (creators : Option (List String)) : String :=
  let search := "metadata.title:\"" ++ title ++ "\""
  let search :=
    match owner with
    | some o => if o ≠ "" then search ++ " owners:" ++ o else search
    | none => search
  let search :=
    match creators with
    | some cs =>
        let creators_query := "\"" ++ pyJoin "\" OR \"" cs ++ "\""
        search ++ " metadata.creators.name:" ++ creators_query
    | none => search
  pyReplace (search) "/" " "

/-- `response.json()["hits"]["hits"]` iterated into a list (line 28). -/
def get_hits (body : Json) : Except PyError (List Json) := do
  let hits0 ← body.index "hits"
  let hits1 ← hits0.index "hits"
  hits1.asArr

/-- The triple access pattern `d["id"], d["links"]["bucket"],
d["links"]["html"]` shared by lines 38-42, 66-70 and 85-89 (the `html`
value must be a string for `.replace` to exist). -/
def deposition_fields (deposition : Json) : Except PyError (Json × Json × String) := do
  let idJ ← deposition.index "id"
  let links ← deposition.index "links"
  let bucket ← links.index "bucket"
  let htmlJ ← links.index "html"
  let html ← htmlJ.asStr
  pure (idJ, bucket, html)

/-- `search_for_deposition` (lines 10-42).  Note: the response2s status
code is never inspected — the body is decoded unconditionally. -/
def search_for_deposition (env : Env) (title : String) (owner : Option String)
    (creators : Option (List String)) (zenodo_server : String) :
    List Call × Except PyError (Option Json × Option Json × Option String) :=
  let search := build_search_query title owner creators
  let call := Call.searchGet zenodo_server search "bestmatch"
  let r := env call
  match get_hits r.body with
  | .error e => ([call], .error e)
  | .ok [] => ([call], .ok (none, none, none))
  | .ok (deposition :: _) =>
    match deposition_fields deposition with
    | .error e => ([call], .error e)
    | .ok (idJ, bucket, html) =>
        ([call], .ok (some idJ, some bucket, some (pyReplace (html) "deposit" "record")))

/-- `deposition["links"]["latest_draft"].split("/")[-1]` (lines 56-57):
the new draft id is the trailing path segment of the `latest_draft` link. -/
def draft_id_of (body : Json) : Except PyError String := do
  let links ← body.index "links"
  let draftJ ← links.index "latest_draft"
  let new_deposition_url ← draftJ.asStr
  pure ((pySplit (new_deposition_url) "/").getLastD "")

/-- `create_new_version` (lines 45-70): POST `actions/newversion`, parse
the draft id out of `latest_draft`, then GET the new deposition. -/
def create_new_version (env : Env) (deposition_id : Json) (token : String)
    (zenodo_server : String) : List Call × Except PyError (Json × Json × String) :=
  let url := zenodo_server ++ "deposit/depositions/" ++ deposition_id.pyStr ++
    "/actions/newversion"
  let call₁ := Call.newversionPost url [("access_token", token)]
  let r₁ := env call₁
  match raise_for_status r₁ with
  | .error e => ([call₁], .error e)
  | .ok _ =>
    match draft_id_of r₁.body with
    | .error e => ([call₁], .error e)
    | .ok new_deposition_id =>
      let call₂ := Call.fetchGet (zenodo_server ++ "deposit/depositions/" ++
        new_deposition_id) [("access_token", token)]
      let r₂ := env call₂
      match raise_for_status r₂ with
      | .error e => ([call₁, call₂], .error e)
      | .ok _ =>
        match deposition_fields r₂.body with
        | .error e => ([call₁, call₂], .error e)
        | .ok (idJ, bucket, html) =>
            ([call₁, call₂], .ok (idJ, bucket, pyReplace (html) "deposit" "record"))

/-- `create_new_deposition` (lines 73-89): POST `deposit/depositions` with
an empty JSON body (the constant body/header are not recorded). -/
def create_new_deposition (env : Env) (token : String) (zenodo_server : String) :
    List Call × Except PyError (Json × Json × String) :=
  let call := Call.createPost (zenodo_server ++ "deposit/depositions")
    [("access_token", token)]
  let r := env call
  match raise_for_status r with
  | .error e => ([call], .error e)
  | .ok _ =>
    match deposition_fields r.body with
    | .error e => ([call], .error e)
    | .ok (idJ, bucket, html) =>
        ([call], .ok (idJ, bucket, pyReplace (html) "deposit" "record"))

/-- The pieces of the OS the script touches: `os.path.isfile`,
`os.path.abspath`, `os.path.basename`, and `open` (whose success on a path
`p` is `isfile (abspath p)`, resolution being relative to the same cwd). -/
structure Sys where
  isfile : String → Bool
  abspath : String → String
  basename : String → String

/-- `upload_to_zenodo` (lines 92-108): open the local file, PUT it to
`<bucket_url>/<filebase>`.  `file_url` is only printed. -/
def upload_to_zenodo (os : Sys) (env : Env) (filename : String) (bucket_url : Json)
    (file_url : String) (filebase : String) (token : String) :
    List Call × Except PyError Unit :=
  if os.isfile (os.abspath filename) then
    let call := Call.uploadPut (bucket_url.pyStr ++ "/" ++ filebase)
      [("access_token", token)]
    match raise_for_status (env call) with
    | .error e => ([call], .error e)
    | .ok _ => ([call], .ok ())
  else
    let _ := file_url
    ([], .error (.fileNotFoundError filename))

/-- `add_meta_data` (lines 111-126).  Its progress message (line 117)
interpolates `filename`, which is not a parameter or local: Python resolves
it as a module global, passed here as `filename_global`.  When no such
global exists the f-string raises `NameError` before the PUT is issued. -/
def add_meta_data (env : Env) (filename_global : Option String) (deposition_id : Json)
    (meta_data : Json) (token : String) (zenodo_server : String) :
    List Call × Except PyError Unit :=
  match filename_global with
  | none => ([], .error (.nameError "filename"))
  | some _ =>
    let call := Call.metadataPut
      (zenodo_server ++ "deposit/depositions/" ++ deposition_id.pyStr)
      [("access_token", token)] meta_data
    match raise_for_status (env call) with
    | .error e => ([call], .error e)
    | .ok _ => ([call], .ok ())

/-- `publish_file` (lines 129-141): POST `<server>/<id>/actions/publish`
(no `deposit/depositions` segment) with the token as a query parameter. -/
def publish_file (env : Env) (deposition_id : Json) (filebase : String)
    (token : String) (zenodo_server : String) : List Call × Except PyError Unit :=
  let call := Call.publishPost
    (zenodo_server ++ "/" ++ deposition_id.pyStr ++ "/actions/publish")
    [("access_token", token)]
  match raise_for_status (env call) with
  | .error e => ([call], .error e)
  | .ok _ => ([call], .ok ())

/-- `creator["name"]` for each creator, each value required to be a string
by `'" OR "'.join` (lines 21, 201).  The caller builds a generator, so in
Python these lookups happen inside the join; evaluated eagerly here, which
yields the same error and the same (empty) call trace. -/
def creator_names : List Json → Except PyError (List String)
  | [] => .ok []
  | c :: rest => do
    let nJ ← c.index "name"
    let n ← nJ.asStr
    let ns ← creator_names rest
    pure (n :: ns)

/-- The title and creator names the main loop reads out of the config
(lines 200-201); the title is stringified by the f-string in the query. -/
def config_title_creators (meta_data : Json) : Except PyError (String × List String) := do
  let m ← meta_data.index "metadata"
  let titleJ ← m.index "title"
  let creatorsJ ← m.index "creators"
  let creators ← creatorsJ.asArr
  let names ← creator_names creators
  pure (titleJ.pyStr, names)

/-- The `if not deposition_id:` branch of the main loop (lines 205-222):
create a new deposition, upload, attach metadata, optionally publish.
`add_meta_data` receives the module-global `filename` set at line 192. -/
def create_path (os : Sys) (env : Env) (publish : Bool) (meta_data : Json)
    (token : String) (file : String) (filename : String) (filebase : String) :
    List Call × Except PyError Unit :=
  match create_new_deposition env token defaultServer with
  | (t, .error e) => (t, .error e)
  | (t, .ok (deposition_id, bucket_url, file_url)) =>
    match upload_to_zenodo os env file bucket_url file_url filebase token with
    | (t2, .error e) => (t ++ t2, .error e)
    | (t2, .ok _) =>
      match add_meta_data env (some filename) deposition_id meta_data token
          defaultServer with
      | (t3, .error e) => (t ++ t2 ++ t3, .error e)
      | (t3, .ok _) =>
        if publish then
          match publish_file env deposition_id filebase token defaultServer with
          | (t4, r) => (t ++ t2 ++ t3 ++ t4, r)
        else (t ++ t2 ++ t3, .ok ())

/-- The `else` branch of the main loop (lines 223-238): create a new
version of the matched deposition, upload, optionally publish — no
metadata attachment. -/
def version_path (os : Sys) (env : Env) (publish : Bool) (token : String)
    (file : String) (filebase : String) (deposition_id : Json) :
    List Call × Except PyError Unit :=
  match create_new_version env deposition_id token defaultServer with
  | (t, .error e) => (t, .error e)
  | (t, .ok (new_id, bucket_url, file_url)) =>
    match upload_to_zenodo os env file bucket_url file_url filebase token with
    | (t2, .error e) => (t ++ t2, .error e)
    | (t2, .ok _) =>
      if publish then
        match publish_file env new_id filebase token defaultServer with
        | (t3, r) => (t ++ t2 ++ t3, r)
      else (t ++ t2, .ok ())

/-- One iteration of the main loop (lines 191-238): existence check on the
local file, search, then one of the two paths selected by the truthiness
of the returned deposition id. -/
def process_file (os : Sys) (env : Env) (publish : Bool) (meta_data : Json)
    (token : String) (file : String) : List Call × Except PyError Unit :=
  let filename := os.abspath file
  let filebase := os.basename filename
  if os.isfile filename then
    match config_title_creators meta_data with
    | .error e => ([], .error e)
    | .ok (title, names) =>
      match search_for_deposition env title none (some names) defaultServer with
      | (t, .error e) => (t, .error e)
      | (t, .ok (deposition_id, _bucket_url, _file_url)) =>
        match deposition_id with
        | some j =>
          if j.truthy then
            let r := version_path os env publish token file filebase j
            (t ++ r.1, r.2)
          else
            let r := create_path os env publish meta_data token file filename filebase
            (t ++ r.1, r.2)
        | none =>
          let r := create_path os env publish meta_data token file filename filebase
          (t ++ r.1, r.2)
  else ([], .error (.fileNotFoundError filename))

/-! ### Definitions taken from the spec's words, for comparison -/

/-- Modelled from the spec: the query it describes for title `T`, owner
`O`, creators `[A, B]` — the composed string with all `/` characters
*removed* (the code instead replaces them with a space, line 23). -/
def searchQuerySpec (title owner a b : String) : String :=
  pyReplace ("metadata.title:\"" ++ title ++ "\" owners:" ++ owner ++
    " metadata.creators.name:\"" ++ a ++ "\" OR \"" ++ b ++ "\"") "/" ""

/-- Modelled from the spec: substituting `pat` with `rep` *exactly once*
(first occurrence only) — the code2s `str.replace` instead rewrites every
occurrence. -/
def replaceFirstSpec (s pat rep : String) : String :=
  match pySplit s pat with
  | [] => s
  | [_] => s
  | a :: rest => a ++ rep ++ pyJoin pat rest

/-! ### The concrete `Call` values the script issues -/

/-- The search GET of `search_for_deposition` (line 28). -/
def searchCall (srv title : String) (owner : Option String)
    (creators : Option (List String)) : Call :=
  .searchGet srv (build_search_query title owner creators) "bestmatch"

/-- The POST of `create_new_deposition` (line 75). -/
def createCall (srv token : String) : Call :=
  .createPost (srv ++ "deposit/depositions") [("access_token", token)]

/-- The `newversion` POST of `create_new_version` (line 49). -/
def newversionCall (srv : String) (dep : Json) (token : String) : Call :=
  .newversionPost (srv ++ "deposit/depositions/" ++ dep.pyStr ++ "/actions/newversion")
    [("access_token", token)]

/-- The deposition GET of `create_new_version` (line 59). -/
def fetchCall (srv nid token : String) : Call :=
  .fetchGet (srv ++ "deposit/depositions/" ++ nid) [("access_token", token)]

/-- The bucket PUT of `upload_to_zenodo` (line 102). -/
def uploadCall (bucket : Json) (filebase token : String) : Call :=
  .uploadPut (bucket.pyStr ++ "/" ++ filebase) [("access_token", token)]

/-- The metadata PUT of `add_meta_data` (line 119). -/
def metadataCall (srv : String) (dep meta : Json) (token : String) : Call :=
  .metadataPut (srv ++ "deposit/depositions/" ++ dep.pyStr)
    [("access_token", token)] meta

/-- The publish POST of `publish_file` (line 136). -/
def publishCall (srv : String) (dep : Json) (token : String) : Call :=
  .publishPost (srv ++ "/" ++ dep.pyStr ++ "/actions/publish")
    [("access_token", token)]

/-! ### Concrete fixtures for witnesses and counterexamples -/

/-- A filesystem on which every path exists (paths taken as absolute). -/
def sysAll : Sys := ⟨fun _ => true, id, id⟩

/-- A filesystem on which no path exists. -/
def sysNone : Sys := ⟨fun _ => false, id, id⟩

/-- The sample config of the spec: title `Sample Dataset`, one creator. -/
def cfg : Json :=
  .obj [("metadata", .obj
    [("title", .str "Sample Dataset"),
     ("creators", .arr [.obj [("name", .str "A. Researcher")]])])]

/-- A deposition body: id 42, a bucket link and a `deposit` HTML link. -/
def depBody42 : Json :=
  .obj [("id", .num 42),
        ("links", .obj
          [("bucket", .str "https://sandbox.zenodo.org/api/files/bkt42"),
           ("html", .str "https://sandbox.zenodo.org/deposit/42")])]

/-- A search body whose hit list holds exactly the deposition above. -/
def searchBodyFound : Json :=
  .obj [("hits", .obj [("hits", .arr [depBody42])])]

/-- A search body with an empty hit list. -/
def searchBodyEmpty : Json :=
  .obj [("hits", .obj [("hits", .arr [])])]

/-- The `newversion` response body: a `latest_draft` link ending in `99`. -/
def nvBody : Json :=
  .obj [("links", .obj
    [("latest_draft", .str "https://sandbox.zenodo.org/api/deposit/depositions/99")])]

/-- The fetched draft deposition with id 99. -/
def depBody99 : Json :=
  .obj [("id", .num 99),
        ("links", .obj
          [("bucket", .str "https://sandbox.zenodo.org/api/files/bkt99"),
           ("html", .str "https://sandbox.zenodo.org/deposit/99")])]

/-- A freshly created deposition with id 7. -/
def depBody7 : Json :=
  .obj [("id", .num 7),
        ("links", .obj
          [("bucket", .str "https://sandbox.zenodo.org/api/files/bkt7"),
           ("html", .str "https://sandbox.zenodo.org/deposit/7")])]

/-- A healthy remote: the search finds deposition 42, every other call
succeeds. -/
def envOk : Env := fun c =>
  match c with
  | .searchGet _ _ _ => ⟨200, searchBodyFound⟩
  | .newversionPost _ _ => ⟨201, nvBody⟩
  | .fetchGet _ _ => ⟨200, depBody99⟩
  | .createPost _ _ => ⟨201, depBody7⟩
  | .uploadPut _ _ => ⟨201, .null⟩
  | .metadataPut _ _ _ => ⟨200, .null⟩
  | .publishPost _ _ => ⟨202, .null⟩

/-- Like `envOk` but the search finds nothing. -/
def envEmptyHits : Env := fun c =>
  match c with
  | .searchGet _ _ _ => ⟨200, searchBodyEmpty⟩
  | other => envOk other

/-- Like `envOk` but the search response carries HTTP status 400 while
still holding a well-formed hit list. -/
def envSearch400 : Env := fun c =>
  match c with
  | .searchGet _ _ _ => ⟨400, searchBodyFound⟩
  | other => envOk other

/-- Like `envOk` but the `newversion` POST fails with status 500. -/
def envNv500 : Env := fun c =>
  match c with
  | .newversionPost _ _ => ⟨500, nvBody⟩
  | other => envOk other

/-- Like `envOk` but every status-checked call fails with status 403. -/
def envAll403 : Env := fun c =>
  match c with
  | .searchGet _ _ _ => ⟨200, searchBodyFound⟩
  | _ => ⟨403, .null⟩

/-- Like `envOk` but the first hit2s id is the falsy number 0. -/
def envZeroId : Env := fun c =>
  match c with
  | .searchGet _ _ _ => ⟨200, .obj [("hits", .obj [("hits", .arr
      [.obj [("id", .num 0),
             ("links", .obj
               [("bucket", .str "https://sandbox.zenodo.org/api/files/bkt0"),
                ("html", .str "https://sandbox.zenodo.org/deposit/0")])]])])]⟩
  | other => envOk other

/-- Like `envOk` but the first hit2s HTML link contains the substring
`deposit` twice. -/
def envDoubleDeposit : Env := fun c =>
  match c with
  | .searchGet _ _ _ => ⟨200, .obj [("hits", .obj [("hits", .arr
      [.obj [("id", .num 5),
             ("links", .obj
               [("bucket", .str "https://sandbox.zenodo.org/api/files/bkt5"),
                ("html", .str "https://sandbox.zenodo.org/deposit/deposit")])]])])]⟩
  | other => envOk other

/-! ### Behavioural lemmas, one per call site and per workflow branch -/

theorem search_for_deposition_found (env : Env) (title : String) (owner : Option String)
    (creators : Option (List String)) (srv : String) (hit : Json) (hits : List Json)
    (idJ bucketJ : Json) (html : String)
    (h1 : get_hits (env (searchCall srv title owner creators)).body = .ok (hit :: hits))
    (h2 : deposition_fields hit = .ok (idJ, bucketJ, html)) :
    search_for_deposition env title owner creators srv =
      ([searchCall srv title owner creators],
       .ok (some idJ, some bucketJ, some (pyReplace html "deposit" "record"))) := by
  simp only [search_for_deposition, searchCall] at *
  rw [h1]
  dsimp only
  rw [h2]

theorem search_for_deposition_empty (env : Env) (title : String) (owner : Option String)
    (creators : Option (List String)) (srv : String)
    (h1 : get_hits (env (searchCall srv title owner creators)).body = .ok []) :
    search_for_deposition env title owner creators srv =
      ([searchCall srv title owner creators], .ok (none, none, none)) := by
  simp only [search_for_deposition, searchCall] at *
  rw [h1]

theorem create_new_version_ok (env : Env) (dep : Json) (token srv nid : String)
    (idJ bucketJ : Json) (html : String)
    (h1 : (env (newversionCall srv dep token)).status < 400)
    (h2 : draft_id_of (env (newversionCall srv dep token)).body = .ok nid)
    (h3 : (env (fetchCall srv nid token)).status < 400)
    (h4 : deposition_fields (env (fetchCall srv nid token)).body = .ok (idJ, bucketJ, html)) :
    create_new_version env dep token srv =
      ([newversionCall srv dep token, fetchCall srv nid token],
       .ok (idJ, bucketJ, pyReplace html "deposit" "record")) := by
  simp only [create_new_version, newversionCall, fetchCall, raise_for_status] at *
  rw [if_neg (by omega)]
  dsimp only
  rw [h2]
  dsimp only
  rw [if_neg (by omega)]
  dsimp only
  rw [h4]

theorem create_new_version_fail_fast (env : Env) (dep : Json) (token srv : String)
    (h : 400 ≤ (env (newversionCall srv dep token)).status) :
    create_new_version env dep token srv =
      ([newversionCall srv dep token],
       .error (.httpError (env (newversionCall srv dep token)).status)) := by
  simp only [create_new_version, newversionCall, raise_for_status] at *
  rw [if_pos h]

theorem create_new_version_fetch_fail_fast (env : Env) (dep : Json) (token srv nid : String)
    (h1 : (env (newversionCall srv dep token)).status < 400)
    (h2 : draft_id_of (env (newversionCall srv dep token)).body = .ok nid)
    (h3 : 400 ≤ (env (fetchCall srv nid token)).status) :
    create_new_version env dep token srv =
      ([newversionCall srv dep token, fetchCall srv nid token],
       .error (.httpError (env (fetchCall srv nid token)).status)) := by
  simp only [create_new_version, newversionCall, fetchCall, raise_for_status] at *
  rw [if_neg (by omega)]
  dsimp only
  rw [h2]
  dsimp only
  rw [if_pos h3]

theorem create_new_deposition_ok (env : Env) (token srv : String)
    (idJ bucketJ : Json) (html : String)
    (h1 : (env (createCall srv token)).status < 400)
    (h2 : deposition_fields (env (createCall srv token)).body = .ok (idJ, bucketJ, html)) :
    create_new_deposition env token srv =
      ([createCall srv token], .ok (idJ, bucketJ, pyReplace html "deposit" "record")) := by
  simp only [create_new_deposition, createCall, raise_for_status] at *
  rw [if_neg (by omega)]
  dsimp only
  rw [h2]

theorem create_new_deposition_fail_fast (env : Env) (token srv : String)
    (h : 400 ≤ (env (createCall srv token)).status) :
    create_new_deposition env token srv =
      ([createCall srv token], .error (.httpError (env (createCall srv token)).status)) := by
  simp only [create_new_deposition, createCall, raise_for_status] at *
  rw [if_pos h]

theorem upload_ok (os : Sys) (env : Env) (file : String) (bucketJ : Json)
    (fu fb token : String)
    (hf : os.isfile (os.abspath file) = true)
    (h : (env (uploadCall bucketJ fb token)).status < 400) :
    upload_to_zenodo os env file bucketJ fu fb token =
      ([uploadCall bucketJ fb token], .ok ()) := by
  simp only [upload_to_zenodo, uploadCall, raise_for_status] at *
  rw [hf, if_pos rfl]
  rw [if_neg (by omega)]

theorem upload_fail_fast (os : Sys) (env : Env) (file : String) (bucketJ : Json)
    (fu fb token : String)
    (hf : os.isfile (os.abspath file) = true)
    (h : 400 ≤ (env (uploadCall bucketJ fb token)).status) :
    upload_to_zenodo os env file bucketJ fu fb token =
      ([uploadCall bucketJ fb token],
       .error (.httpError (env (uploadCall bucketJ fb token)).status)) := by
  simp only [upload_to_zenodo, uploadCall, raise_for_status] at *
  rw [hf, if_pos rfl]
  rw [if_pos h]

theorem add_meta_data_ok (env : Env) (fn : String) (dep meta : Json) (token srv : String)
    (h : (env (metadataCall srv dep meta token)).status < 400) :
    add_meta_data env (some fn) dep meta token srv =
      ([metadataCall srv dep meta token], .ok ()) := by
  simp only [add_meta_data, metadataCall, raise_for_status] at *
  rw [if_neg (by omega)]

theorem add_meta_data_fail_fast (env : Env) (fn : String) (dep meta : Json) (token srv : String)
    (h : 400 ≤ (env (metadataCall srv dep meta token)).status) :
    add_meta_data env (some fn) dep meta token srv =
      ([metadataCall srv dep meta token],
       .error (.httpError (env (metadataCall srv dep meta token)).status)) := by
  simp only [add_meta_data, metadataCall, raise_for_status] at *
  rw [if_pos h]

theorem publish_file_ok (env : Env) (dep : Json) (fb token srv : String)
    (h : (env (publishCall srv dep token)).status < 400) :
    publish_file env dep fb token srv = ([publishCall srv dep token], .ok ()) := by
  simp only [publish_file, publishCall, raise_for_status] at *
  rw [if_neg (by omega)]

theorem publish_file_fail_fast (env : Env) (dep : Json) (fb token srv : String)
    (h : 400 ≤ (env (publishCall srv dep token)).status) :
    publish_file env dep fb token srv =
      ([publishCall srv dep token],
       .error (.httpError (env (publishCall srv dep token)).status)) := by
  simp only [publish_file, publishCall, raise_for_status] at *
  rw [if_pos h]

theorem publish_file_trace (env : Env) (dep : Json) (fb token srv : String) :
    (publish_file env dep fb token srv).1 = [publishCall srv dep token] := by
  simp only [publish_file, publishCall]
  split <;> rfl

theorem create_new_deposition_trace (env : Env) (token srv : String) :
    (create_new_deposition env token srv).1 = [createCall srv token] := by
  simp only [create_new_deposition, createCall]
  split
  · rfl
  · split <;> rfl

theorem create_new_version_no_meta (env : Env) (dep : Json) (token srv u : String)
    (p : List (String × String)) (d : Json) :
    Call.metadataPut u p d ∉ (create_new_version env dep token srv).1 := by
  simp only [create_new_version]
  split
  · simp
  · split
    · simp
    · split
      · simp
      · split <;> simp

theorem upload_no_meta (os : Sys) (env : Env) (file : String) (bucketJ : Json)
    (fu fb token u : String) (p : List (String × String)) (d : Json) :
    Call.metadataPut u p d ∉ (upload_to_zenodo os env file bucketJ fu fb token).1 := by
  simp only [upload_to_zenodo]
  split
  · split <;> simp
  · simp

theorem publish_no_meta (env : Env) (dep : Json) (fb token srv u : String)
    (p : List (String × String)) (d : Json) :
    Call.metadataPut u p d ∉ (publish_file env dep fb token srv).1 := by
  simp only [publish_file]
  split <;> simp

theorem version_path_no_meta (os : Sys) (env : Env) (publish : Bool)
    (token file fb u : String) (j : Json) (p : List (String × String)) (d : Json) :
    Call.metadataPut u p d ∉ (version_path os env publish token file fb j).1 := by
  simp only [version_path]
  have hmc := create_new_version_no_meta env j token defaultServer u p d
  generalize hc : create_new_version env j token defaultServer = cr
  rw [hc] at hmc
  obtain ⟨t, r⟩ := cr
  rcases r with e | ⟨new_id, bucket, fu⟩
  · exact hmc
  · dsimp only
    have hmu := upload_no_meta os env file bucket fu fb token u p d
    generalize hu : upload_to_zenodo os env file bucket fu fb token = ur
    rw [hu] at hmu
    obtain ⟨t2, r2⟩ := ur
    rcases r2 with e2 | _
    · dsimp only
      simp only [List.mem_append]
      rintro (h | h)
      · exact hmc h
      · exact hmu h
    · dsimp only
      cases publish
      · rw [if_neg (by decide)]
        simp only [List.mem_append]
        rintro (h | h)
        · exact hmc h
        · exact hmu h
      · rw [if_pos rfl]
        simp only [List.mem_append]
        rintro ((h | h) | h)
        · exact hmc h
        · exact hmu h
        · exact publish_no_meta env new_id fb token defaultServer u p d h

theorem version_path_ok (os : Sys) (env : Env) (publish : Bool)
    (token file fb nid : String) (j idJ bucketJ : Json) (html : String)
    (h1 : (env (newversionCall defaultServer j token)).status < 400)
    (h2 : draft_id_of (env (newversionCall defaultServer j token)).body = .ok nid)
    (h3 : (env (fetchCall defaultServer nid token)).status < 400)
    (h4 : deposition_fields (env (fetchCall defaultServer nid token)).body =
      .ok (idJ, bucketJ, html))
    (hf : os.isfile (os.abspath file) = true)
    (h5 : (env (uploadCall bucketJ fb token)).status < 400)
    (h6 : (env (publishCall defaultServer idJ token)).status < 400) :
    version_path os env publish token file fb j =
      ([newversionCall defaultServer j token, fetchCall defaultServer nid token,
        uploadCall bucketJ fb token] ++
        (if publish then [publishCall defaultServer idJ token] else []), .ok ()) := by
  simp only [version_path]
  rw [create_new_version_ok env j token defaultServer nid idJ bucketJ html h1 h2 h3 h4]
  dsimp only
  rw [upload_ok os env file bucketJ (pyReplace html "deposit" "record") fb token hf h5]
  dsimp only
  cases publish
  · rw [if_neg (by decide), if_neg (by decide)]
    simp
  · rw [if_pos rfl, if_pos rfl]
    rw [publish_file_ok env idJ fb token defaultServer h6]
    simp

theorem version_path_nv_fail (os : Sys) (env : Env) (publish : Bool)
    (token file fb : String) (j : Json)
    (h : 400 ≤ (env (newversionCall defaultServer j token)).status) :
    version_path os env publish token file fb j =
      ([newversionCall defaultServer j token],
       .error (.httpError (env (newversionCall defaultServer j token)).status)) := by
  simp only [version_path]
  rw [create_new_version_fail_fast env j token defaultServer h]

theorem create_path_upload_fail (os : Sys) (env : Env) (publish : Bool) (meta : Json)
    (token file fn fb : String) (idJ bucketJ : Json) (html : String)
    (h1 : (env (createCall defaultServer token)).status < 400)
    (h2 : deposition_fields (env (createCall defaultServer token)).body =
      .ok (idJ, bucketJ, html))
    (hf : os.isfile (os.abspath file) = true)
    (h3 : 400 ≤ (env (uploadCall bucketJ fb token)).status) :
    create_path os env publish meta token file fn fb =
      ([createCall defaultServer token, uploadCall bucketJ fb token],
       .error (.httpError (env (uploadCall bucketJ fb token)).status)) := by
  simp only [create_path]
  rw [create_new_deposition_ok env token defaultServer idJ bucketJ html h1 h2]
  dsimp only
  rw [upload_fail_fast os env file bucketJ (pyReplace html "deposit" "record") fb token hf h3]
  rfl

theorem create_path_trace_head (os : Sys) (env : Env) (publish : Bool) (meta : Json)
    (token file fn fb : String) :
    ∃ rest, (create_path os env publish meta token file fn fb).1 =
      createCall defaultServer token :: rest := by
  simp only [create_path]
  have htr := create_new_deposition_trace env token defaultServer
  generalize hc : create_new_deposition env token defaultServer = cr
  rw [hc] at htr
  obtain ⟨t, r⟩ := cr
  dsimp only at htr
  subst htr
  rcases r with e | ⟨id, bk, fu⟩
  · exact ⟨[], rfl⟩
  · dsimp only
    generalize hu : upload_to_zenodo os env file bk fu fb token = ur
    obtain ⟨t2, r2⟩ := ur
    rcases r2 with e2 | _
    · exact ⟨t2, by simp⟩
    · dsimp only
      generalize hm : add_meta_data env (some fn) id meta token defaultServer = mr
      obtain ⟨t3, r3⟩ := mr
      rcases r3 with e3 | _
      · exact ⟨t2 ++ t3, by simp⟩
      · dsimp only
        cases publish
        · rw [if_neg (by decide)]
          exact ⟨t2 ++ t3, by simp⟩
        · rw [if_pos rfl]
          exact ⟨t2 ++ t3 ++ (publish_file env id fb token defaultServer).1, by simp⟩

theorem process_file_not_found (os : Sys) (env : Env) (publish : Bool) (meta : Json)
    (token file : String)
    (h : os.isfile (os.abspath file) = false) :
    process_file os env publish meta token file =
      ([], .error (.fileNotFoundError (os.abspath file))) := by
  simp only [process_file]
  rw [h, if_neg (by decide)]

theorem process_file_found_version (os : Sys) (env : Env) (publish : Bool) (meta : Json)
    (token file title : String) (names : List String) (hit : Json) (hits : List Json)
    (idJ bucketJ : Json) (html : String)
    (hf : os.isfile (os.abspath file) = true)
    (hc : config_title_creators meta = .ok (title, names))
    (h1 : get_hits (env (searchCall defaultServer title none (some names))).body =
      .ok (hit :: hits))
    (h2 : deposition_fields hit = .ok (idJ, bucketJ, html))
    (ht : idJ.truthy = true) :
    process_file os env publish meta token file =
      (searchCall defaultServer title none (some names) ::
        (version_path os env publish token file (os.basename (os.abspath file)) idJ).1,
       (version_path os env publish token file (os.basename (os.abspath file)) idJ).2) := by
  simp only [process_file]
  rw [hf, if_pos rfl, hc]
  dsimp only
  rw [search_for_deposition_found env title none (some names) defaultServer hit hits
    idJ bucketJ html h1 h2]
  dsimp only
  rw [ht, if_pos rfl]
  rfl

theorem process_file_empty_create (os : Sys) (env : Env) (publish : Bool) (meta : Json)
    (token file title : String) (names : List String)
    (hf : os.isfile (os.abspath file) = true)
    (hc : config_title_creators meta = .ok (title, names))
    (h1 : get_hits (env (searchCall defaultServer title none (some names))).body = .ok []) :
    process_file os env publish meta token file =
      (searchCall defaultServer title none (some names) ::
        (create_path os env publish meta token file (os.abspath file)
          (os.basename (os.abspath file))).1,
       (create_path os env publish meta token file (os.abspath file)
          (os.basename (os.abspath file))).2) := by
  simp only [process_file]
  rw [hf, if_pos rfl, hc]
  dsimp only
  rw [search_for_deposition_empty env title none (some names) defaultServer h1]
  rfl

theorem process_file_falsy_create (os : Sys) (env : Env) (publish : Bool) (meta : Json)
    (token file title : String) (names : List String) (hit : Json) (hits : List Json)
    (idJ bucketJ : Json) (html : String)
    (hf : os.isfile (os.abspath file) = true)
    (hc : config_title_creators meta = .ok (title, names))
    (h1 : get_hits (env (searchCall defaultServer title none (some names))).body =
      .ok (hit :: hits))
    (h2 : deposition_fields hit = .ok (idJ, bucketJ, html))
    (ht : idJ.truthy = false) :
    process_file os env publish meta token file =
      (searchCall defaultServer title none (some names) ::
        (create_path os env publish meta token file (os.abspath file)
          (os.basename (os.abspath file))).1,
       (create_path os env publish meta token file (os.abspath file)
          (os.basename (os.abspath file))).2) := by
  simp only [process_file]
  rw [hf, if_pos rfl, hc]
  dsimp only
  rw [search_for_deposition_found env title none (some names) defaultServer hit hits
    idJ bucketJ html h1 h2]
  dsimp only
  rw [ht, if_neg (by decide)]
  rfl

theorem draft_id_of_eq (body links : Json) (draftUrl : String)
    (h1 : body.index "links" = .ok links)
    (h2 : links.index "latest_draft" = .ok (.str draftUrl)) :
    draft_id_of body = .ok ((pySplit draftUrl "/").getLastD "") := by
  simp only [draft_id_of, bind, Except.bind, h1, h2, Json.asStr, pure, Except.pure]


/-! ### Claim theorems -/

/-- C2, counterexample: at title `a/b` the composed query replaces the `/`
with a space (line 23), so it differs from the spec's query with the `/`
removed. -/
theorem claim_c2_counterexample :
    build_search_query "a/b" (some "O") (some ["A", "B"]) =
      "metadata.title:\"a b\" owners:O metadata.creators.name:\"A\" OR \"B\"" ∧
    searchQuerySpec "a/b" "O" "A" "B" =
      "metadata.title:\"ab\" owners:O metadata.creators.name:\"A\" OR \"B\"" ∧
    build_search_query "a/b" (some "O") (some ["A", "B"]) ≠
      searchQuerySpec "a/b" "O" "A" "B" :=
  ⟨by decide, by decide, by decide⟩

/-- C2 (amended): for every title `T`, nonempty owner `O` and creators
`[A, B]`, the query equals
`metadata.title:"T" owners:O metadata.creators.name:"A" OR "B"` with every
`/` character replaced by a space (not removed). -/
theorem claim_c2_amended_query (T O A B : String) (h : O ≠ "") :
    build_search_query T (some O) (some [A, B]) =
      pyReplace ("metadata.title:\"" ++ T ++ "\" owners:" ++ O ++
        " metadata.creators.name:" ++ "\"" ++ A ++ "\" OR \"" ++ B ++ "\"") "/" " " := by
  simp only [build_search_query, pyJoin]
  rw [if_pos h]
  congr 1
  simp only [String.append_assoc]
  rw [← String.append_assoc "\"" " owners:",
      ← String.append_assoc " metadata.creators.name:" "\""]
  rfl

/-- Witness for C2 at `T`, `O`, `A`, `B`. -/
theorem claim_c2_witness :
    ("O" : String) ≠ "" ∧
    build_search_query "T" (some "O") (some ["A", "B"]) =
      pyReplace ("metadata.title:\"" ++ "T" ++ "\" owners:" ++ "O" ++
        " metadata.creators.name:" ++ "\"" ++ "A" ++ "\" OR \"" ++ "B" ++ "\"") "/" " " :=
  ⟨by decide, claim_c2_amended_query "T" "O" "A" "B" (by decide)⟩

/-- C3, counterexample: on a hit whose HTML link contains `deposit` twice,
the code rewrites both occurrences (`str.replace` replaces all), so the
returned record URL is not the link with `deposit` substituted exactly
once. -/
theorem claim_c3_counterexample :
    (search_for_deposition envDoubleDeposit "T" none none defaultServer).2 =
      .ok (some (.num 5), some (.str "https://sandbox.zenodo.org/api/files/bkt5"),
        some "https://sandbox.zenodo.org/record/record") ∧
    "https://sandbox.zenodo.org/record/record" ≠
      replaceFirstSpec "https://sandbox.zenodo.org/deposit/deposit" "deposit" "record" :=
  ⟨rfl, by decide⟩

/-- C3 (amended): for every search result with at least one hit, the
search returns the first hit2s id, its bucket link, and the first hit2s
HTML link with *every* occurrence of `deposit` substituted by `record`. -/
theorem claim_c3_amended_replace_all (env : Env) (title : String)
    (owner : Option String) (creators : Option (List String)) (srv : String)
    (hit : Json) (hits : List Json) (idJ bucketJ : Json) (html : String)
    (h1 : get_hits (env (searchCall srv title owner creators)).body = .ok (hit :: hits))
    (h2 : deposition_fields hit = .ok (idJ, bucketJ, html)) :
    search_for_deposition env title owner creators srv =
      ([searchCall srv title owner creators],
       .ok (some idJ, some bucketJ, some (pyReplace html "deposit" "record"))) :=
  search_for_deposition_found env title owner creators srv hit hits idJ bucketJ html h1 h2

/-- Witness for C3 on `envOk`: the single hit is deposition 42. -/
theorem claim_c3_witness :
    get_hits (envOk (searchCall defaultServer "T" none none)).body = .ok [depBody42] ∧
    deposition_fields depBody42 = .ok (.num 42,
      .str "https://sandbox.zenodo.org/api/files/bkt42",
      "https://sandbox.zenodo.org/deposit/42") ∧
    search_for_deposition envOk "T" none none defaultServer =
      ([searchCall defaultServer "T" none none],
       .ok (some (.num 42), some (.str "https://sandbox.zenodo.org/api/files/bkt42"),
         some "https://sandbox.zenodo.org/record/42")) :=
  ⟨rfl, rfl, claim_c3_amended_replace_all envOk "T" none none defaultServer depBody42 []
    (.num 42) (.str "https://sandbox.zenodo.org/api/files/bkt42")
    "https://sandbox.zenodo.org/deposit/42" rfl rfl⟩

/-- C7: the publish POST goes to `<server>/<id>/actions/publish` with the
token as a query parameter; on the default server for id 42 the URL is
`https://sandbox.zenodo.org/api//42/actions/publish` — no
`deposit/depositions` segment (and a doubled slash, since the server base
already ends in `/`). -/
theorem claim_c7_publish_url (env : Env) (dep : Json) (fb token srv : String) :
    (publish_file env dep fb token srv).1 =
      [Call.publishPost (srv ++ "/" ++ dep.pyStr ++ "/actions/publish")
        [("access_token", token)]] ∧
    publishCall defaultServer (.num 42) "tok" =
      .publishPost "https://sandbox.zenodo.org/api//42/actions/publish"
        [("access_token", "tok")] :=
  ⟨publish_file_trace env dep fb token srv, rfl⟩

/-- C8: a file the filesystem does not have fails the existence check of
the main loop (line 194), so the iteration raises `FileNotFoundError`
with an empty call trace — no network call is made for that file. -/
theorem claim_c8_missing_file_no_network (os : Sys) (env : Env) (publish : Bool)
    (meta : Json) (token file : String)
    (h : os.isfile (os.abspath file) = false) :
    process_file os env publish meta token file =
      ([], .error (.fileNotFoundError (os.abspath file))) :=
  process_file_not_found os env publish meta token file h

/-- Witness for C8 on the empty filesystem. -/
theorem claim_c8_witness :
    sysNone.isfile (sysNone.abspath "data.tar.gz") = false ∧
    process_file sysNone envOk true cfg "tok" "data.tar.gz" =
      ([], .error (.fileNotFoundError "data.tar.gz")) :=
  ⟨rfl, claim_c8_missing_file_no_network sysNone envOk true cfg "tok" "data.tar.gz" rfl⟩

/-- C9: when no module-global `filename` is in scope, `add_meta_data`
raises `NameError` from its progress f-string (line 117) before issuing
the HTTP PUT: the call trace is empty. -/
theorem claim_c9_add_meta_data_name_error (env : Env) (dep meta : Json)
    (token srv : String) :
    add_meta_data env none dep meta token srv =
      ([], .error (.nameError "filename")) := rfl

/-- C1, counterexample: an HTTP 400 on the search call does not fail the
call — `search_for_deposition` never inspects the status — and the
workflow goes on to issue the newversion, fetch and upload calls. -/
theorem claim_c1_counterexample :
    (envSearch400 (searchCall defaultServer "Sample Dataset" none
      (some ["A. Researcher"]))).status = 400 ∧
    process_file sysAll envSearch400 false cfg "tok" "f.tar" =
      ([searchCall defaultServer "Sample Dataset" none (some ["A. Researcher"]),
        newversionCall defaultServer (.num 42) "tok",
        fetchCall defaultServer "99" "tok",
        uploadCall (.str "https://sandbox.zenodo.org/api/files/bkt99") "f.tar" "tok"],
       .ok ()) :=
  ⟨rfl, rfl⟩

/-- C1 (amended): each of the six *status-checked* remote calls — create
deposition, newversion POST, the deposition GET inside `create_new_version`,
file upload, metadata PUT, publish — fail-fasts on status ≥ 400 with an
`HTTPError` carrying that status, issuing no further call; and in the
workflow a failed newversion call aborts the file2s processing right after
the search.  The search GET is the exception: it performs no status check
(see the counterexample). -/
theorem claim_c1_amended_fail_fast (env : Env) (os : Sys) (publish : Bool)
    (dep meta bucketJ idJ hit : Json) (hits : List Json)
    (token srv file fb fn fu nid title html : String) (names : List String) :
    (400 ≤ (env (createCall srv token)).status →
      create_new_deposition env token srv =
        ([createCall srv token],
         .error (.httpError (env (createCall srv token)).status))) ∧
    (400 ≤ (env (newversionCall srv dep token)).status →
      create_new_version env dep token srv =
        ([newversionCall srv dep token],
         .error (.httpError (env (newversionCall srv dep token)).status))) ∧
    ((env (newversionCall srv dep token)).status < 400 →
      draft_id_of (env (newversionCall srv dep token)).body = .ok nid →
      400 ≤ (env (fetchCall srv nid token)).status →
      create_new_version env dep token srv =
        ([newversionCall srv dep token, fetchCall srv nid token],
         .error (.httpError (env (fetchCall srv nid token)).status))) ∧
    (os.isfile (os.abspath file) = true →
      400 ≤ (env (uploadCall bucketJ fb token)).status →
      upload_to_zenodo os env file bucketJ fu fb token =
        ([uploadCall bucketJ fb token],
         .error (.httpError (env (uploadCall bucketJ fb token)).status))) ∧
    (400 ≤ (env (metadataCall srv dep meta token)).status →
      add_meta_data env (some fn) dep meta token srv =
        ([metadataCall srv dep meta token],
         .error (.httpError (env (metadataCall srv dep meta token)).status))) ∧
    (400 ≤ (env (publishCall srv dep token)).status →
      publish_file env dep fb token srv =
        ([publishCall srv dep token],
         .error (.httpError (env (publishCall srv dep token)).status))) ∧
    (os.isfile (os.abspath file) = true →
      config_title_creators meta = .ok (title, names) →
      get_hits (env (searchCall defaultServer title none (some names))).body =
        .ok (hit :: hits) →
      deposition_fields hit = .ok (idJ, bucketJ, html) →
      idJ.truthy = true →
      400 ≤ (env (newversionCall defaultServer idJ token)).status →
      process_file os env publish meta token file =
        ([searchCall defaultServer title none (some names),
          newversionCall defaultServer idJ token],
         .error (.httpError (env (newversionCall defaultServer idJ token)).status))) := by
  refine ⟨fun h => create_new_deposition_fail_fast env token srv h,
    fun h => create_new_version_fail_fast env dep token srv h,
    fun h1 h2 h3 => create_new_version_fetch_fail_fast env dep token srv nid h1 h2 h3,
    fun hf h => upload_fail_fast os env file bucketJ fu fb token hf h,
    fun h => add_meta_data_fail_fast env fn dep meta token srv h,
    fun h => publish_file_fail_fast env dep fb token srv h,
    fun hf hc h1 h2 ht h => ?_⟩
  rw [process_file_found_version os env publish meta token file title names hit hits
    idJ bucketJ html hf hc h1 h2 ht,
    version_path_nv_fail os env publish token file (os.basename (os.abspath file)) idJ h]

/-- Witness for C1 on `envNv500`: the newversion POST answers 500, the
iteration stops after search and newversion with an `HTTPError 500`. -/
theorem claim_c1_witness :
    400 ≤ (envNv500 (newversionCall defaultServer (.num 42) "tok")).status ∧
    process_file sysAll envNv500 false cfg "tok" "f.tar" =
      ([searchCall defaultServer "Sample Dataset" none (some ["A. Researcher"]),
        newversionCall defaultServer (.num 42) "tok"],
       .error (.httpError 500)) := by
  refine ⟨by decide, ?_⟩
  have h := (claim_c1_amended_fail_fast envNv500 sysAll false (.num 42) cfg
    (.str "https://sandbox.zenodo.org/api/files/bkt42") (.num 42) depBody42 []
    "tok" defaultServer "f.tar" "fb" "fn" "fu" "99" "Sample Dataset"
    "https://sandbox.zenodo.org/deposit/42" ["A. Researcher"]).2.2.2.2.2.2
  exact h rfl rfl rfl rfl rfl (by decide)

/-- C4: a search whose hit list is empty returns the `(None, None, None)`
sentinel, and the main loop then enters the create-new-deposition branch:
the iteration's first two calls are the search GET and the
create-deposition POST (never the newversion POST). -/
theorem claim_c4_empty_search_creates (os : Sys) (env : Env) (publish : Bool)
    (meta : Json) (token file title srv : String) (names : List String)
    (owner : Option String) (creators : Option (List String)) :
    (get_hits (env (searchCall srv title owner creators)).body = .ok [] →
      search_for_deposition env title owner creators srv =
        ([searchCall srv title owner creators], .ok (none, none, none))) ∧
    (os.isfile (os.abspath file) = true →
      config_title_creators meta = .ok (title, names) →
      get_hits (env (searchCall defaultServer title none (some names))).body = .ok [] →
      (process_file os env publish meta token file).1.take 2 =
        [searchCall defaultServer title none (some names),
         createCall defaultServer token]) := by
  constructor
  · exact fun h => search_for_deposition_empty env title owner creators srv h
  · intro hf hc h1
    rw [process_file_empty_create os env publish meta token file title names hf hc h1]
    obtain ⟨rest, hr⟩ := create_path_trace_head os env publish meta token file
      (os.abspath file) (os.basename (os.abspath file))
    simp [hr]

/-- Witness for C4 on `envEmptyHits`. -/
theorem claim_c4_witness :
    get_hits (envEmptyHits (searchCall defaultServer "Sample Dataset" none
      (some ["A. Researcher"]))).body = .ok [] ∧
    search_for_deposition envEmptyHits "Sample Dataset" none (some ["A. Researcher"])
        defaultServer =
      ([searchCall defaultServer "Sample Dataset" none (some ["A. Researcher"])],
       .ok (none, none, none)) ∧
    (process_file sysAll envEmptyHits false cfg "tok" "f.tar").1.take 2 =
      [searchCall defaultServer "Sample Dataset" none (some ["A. Researcher"]),
       createCall defaultServer "tok"] := by
  refine ⟨rfl, ?_, ?_⟩
  · exact (claim_c4_empty_search_creates sysAll envEmptyHits false cfg "tok" "f.tar"
      "Sample Dataset" defaultServer ["A. Researcher"] none (some ["A. Researcher"])).1 rfl
  · exact (claim_c4_empty_search_creates sysAll envEmptyHits false cfg "tok" "f.tar"
      "Sample Dataset" defaultServer ["A. Researcher"] none (some ["A. Researcher"])).2
      rfl rfl rfl

/-- C5: `create_new_version` parses the new draft2s id as the trailing
path segment of the `latest_draft` link (a `/`-split, last element), then
GETs `deposit/depositions/<new id>` and returns that deposition's id,
bucket and record URL (`deposit` substituted by `record` in the HTML
link). -/
theorem claim_c5_new_version_parses_draft (env : Env) (dep links idJ bucketJ : Json)
    (token srv draftUrl html : String)
    (h1 : (env (newversionCall srv dep token)).status < 400)
    (h2 : (env (newversionCall srv dep token)).body.index "links" = .ok links)
    (h3 : links.index "latest_draft" = .ok (.str draftUrl))
    (h4 : (env (fetchCall srv ((pySplit draftUrl "/").getLastD "") token)).status < 400)
    (h5 : deposition_fields
      (env (fetchCall srv ((pySplit draftUrl "/").getLastD "") token)).body =
      .ok (idJ, bucketJ, html)) :
    create_new_version env dep token srv =
      ([newversionCall srv dep token,
        fetchCall srv ((pySplit draftUrl "/").getLastD "") token],
       .ok (idJ, bucketJ, pyReplace html "deposit" "record")) :=
  create_new_version_ok env dep token srv ((pySplit draftUrl "/").getLastD "")
    idJ bucketJ html h1
    (draft_id_of_eq (env (newversionCall srv dep token)).body links draftUrl h2 h3) h4 h5

/-- Witness for C5 on `envOk`: `latest_draft` ends in `99`, the second GET
targets deposition 99. -/
theorem claim_c5_witness :
    (envOk (newversionCall defaultServer (.num 42) "tok")).status < 400 ∧
    (envOk (newversionCall defaultServer (.num 42) "tok")).body.index "links" =
      .ok (.obj [("latest_draft",
        .str "https://sandbox.zenodo.org/api/deposit/depositions/99")]) ∧
    (pySplit "https://sandbox.zenodo.org/api/deposit/depositions/99" "/").getLastD ""
      = "99" ∧
    create_new_version envOk (.num 42) "tok" defaultServer =
      ([newversionCall defaultServer (.num 42) "tok",
        fetchCall defaultServer "99" "tok"],
       .ok (.num 99, .str "https://sandbox.zenodo.org/api/files/bkt99",
            "https://sandbox.zenodo.org/record/99")) := by
  refine ⟨by decide, rfl, by decide, ?_⟩
  exact claim_c5_new_version_parses_draft envOk (.num 42)
    (.obj [("latest_draft",
      .str "https://sandbox.zenodo.org/api/deposit/depositions/99")])
    (.num 99) (.str "https://sandbox.zenodo.org/api/files/bkt99") "tok" defaultServer
    "https://sandbox.zenodo.org/api/deposit/depositions/99"
    "https://sandbox.zenodo.org/deposit/99" (by decide) rfl rfl (by decide) rfl

/-- C6: when the search finds an existing deposition with a truthy id, the
metadata PUT is never issued for that file, and under all-successful
responses the calls occur in the order search, newversion, fetch, upload,
then publish exactly when the publish flag is set. -/
theorem claim_c6_version_order_no_metadata (os : Sys) (env : Env) (publish : Bool)
    (meta : Json) (token file title nid : String) (names : List String)
    (hit : Json) (hits : List Json) (idJ bucketJ id2 bucket2 : Json)
    (html html2 : String) :
    (os.isfile (os.abspath file) = true →
      config_title_creators meta = .ok (title, names) →
      get_hits (env (searchCall defaultServer title none (some names))).body =
        .ok (hit :: hits) →
      deposition_fields hit = .ok (idJ, bucketJ, html) →
      idJ.truthy = true →
      ∀ u p d, Call.metadataPut u p d ∉ (process_file os env publish meta token file).1) ∧
    (os.isfile (os.abspath file) = true →
      config_title_creators meta = .ok (title, names) →
      get_hits (env (searchCall defaultServer title none (some names))).body =
        .ok (hit :: hits) →
      deposition_fields hit = .ok (idJ, bucketJ, html) →
      idJ.truthy = true →
      (env (newversionCall defaultServer idJ token)).status < 400 →
      draft_id_of (env (newversionCall defaultServer idJ token)).body = .ok nid →
      (env (fetchCall defaultServer nid token)).status < 400 →
      deposition_fields (env (fetchCall defaultServer nid token)).body =
        .ok (id2, bucket2, html2) →
      (env (uploadCall bucket2 (os.basename (os.abspath file)) token)).status < 400 →
      (env (publishCall defaultServer id2 token)).status < 400 →
      process_file os env publish meta token file =
        ([searchCall defaultServer title none (some names),
          newversionCall defaultServer idJ token,
          fetchCall defaultServer nid token,
          uploadCall bucket2 (os.basename (os.abspath file)) token] ++
          (if publish then [publishCall defaultServer id2 token] else []),
         .ok ())) := by
  constructor
  · intro hf hc h1 h2 ht u p d
    rw [process_file_found_version os env publish meta token file title names hit hits
      idJ bucketJ html hf hc h1 h2 ht]
    intro hmem
    rcases List.mem_cons.mp hmem with h | h
    · simp [searchCall] at h
    · exact version_path_no_meta os env publish token file
        (os.basename (os.abspath file)) u idJ p d h
  · intro hf hc h1 h2 ht h3 h4 h5 h6 h7 h8
    rw [process_file_found_version os env publish meta token file title names hit hits
      idJ bucketJ html hf hc h1 h2 ht,
      version_path_ok os env publish token file (os.basename (os.abspath file)) nid
        idJ id2 bucket2 html2 h3 h4 h5 h6 hf h7 h8]
    simp

/-- Witness for C6 on `envOk` with the publish flag set: search finds 42,
the new draft is 99; no metadata PUT appears in the trace. -/
theorem claim_c6_witness :
    config_title_creators cfg = .ok ("Sample Dataset", ["A. Researcher"]) ∧
    (Json.num 42).truthy = true ∧
    Call.metadataPut "https://sandbox.zenodo.org/api/deposit/depositions/99"
      [("access_token", "tok")] cfg ∉
      (process_file sysAll envOk true cfg "tok" "f.tar").1 ∧
    process_file sysAll envOk true cfg "tok" "f.tar" =
      ([searchCall defaultServer "Sample Dataset" none (some ["A. Researcher"]),
        newversionCall defaultServer (.num 42) "tok",
        fetchCall defaultServer "99" "tok",
        uploadCall (.str "https://sandbox.zenodo.org/api/files/bkt99") "f.tar" "tok"] ++
        [publishCall defaultServer (.num 99) "tok"],
       .ok ()) := by
  have h := claim_c6_version_order_no_metadata sysAll envOk true cfg "tok" "f.tar"
    "Sample Dataset" "99" ["A. Researcher"] depBody42 [] (.num 42)
    (.str "https://sandbox.zenodo.org/api/files/bkt42") (.num 99)
    (.str "https://sandbox.zenodo.org/api/files/bkt99")
    "https://sandbox.zenodo.org/deposit/42" "https://sandbox.zenodo.org/deposit/99"
  refine ⟨rfl, rfl, ?_, ?_⟩
  · exact h.1 rfl rfl rfl rfl rfl
      "https://sandbox.zenodo.org/api/deposit/depositions/99"
      [("access_token", "tok")] cfg
  · exact h.2 rfl rfl rfl rfl rfl (by decide) rfl (by decide) rfl (by decide) (by decide)

/-- C10: the main loop branches only on the truthiness of the returned
deposition id (`if not deposition_id:`): on a first hit whose id is the
falsy number 0 the search reports a match, yet the iteration enters the
create-new-deposition branch. -/
theorem claim_c10_falsy_id_create_path (os : Sys) (env : Env) (publish : Bool)
    (meta : Json) (token file title : String) (names : List String)
    (hit : Json) (hits : List Json) (idJ bucketJ : Json) (html : String)
    (hf : os.isfile (os.abspath file) = true)
    (hc : config_title_creators meta = .ok (title, names))
    (h1 : get_hits (env (searchCall defaultServer title none (some names))).body =
      .ok (hit :: hits))
    (h2 : deposition_fields hit = .ok (idJ, bucketJ, html))
    (ht : idJ.truthy = false) :
    search_for_deposition env title none (some names) defaultServer =
      ([searchCall defaultServer title none (some names)],
       .ok (some idJ, some bucketJ, some (pyReplace html "deposit" "record"))) ∧
    (process_file os env publish meta token file).1.take 2 =
      [searchCall defaultServer title none (some names),
       createCall defaultServer token] := by
  constructor
  · exact search_for_deposition_found env title none (some names) defaultServer hit hits
      idJ bucketJ html h1 h2
  · rw [process_file_falsy_create os env publish meta token file title names hit hits
      idJ bucketJ html hf hc h1 h2 ht]
    obtain ⟨rest, hr⟩ := create_path_trace_head os env publish meta token file
      (os.abspath file) (os.basename (os.abspath file))
    simp [hr]

/-- Witness for C10 on `envZeroId`: the hit2s id is 0 — a match is
reported, yet the second call is the create-deposition POST. -/
theorem claim_c10_witness :
    (Json.num 0).truthy = false ∧
    search_for_deposition envZeroId "Sample Dataset" none (some ["A. Researcher"])
        defaultServer =
      ([searchCall defaultServer "Sample Dataset" none (some ["A. Researcher"])],
       .ok (some (.num 0), some (.str "https://sandbox.zenodo.org/api/files/bkt0"),
         some "https://sandbox.zenodo.org/record/0")) ∧
    (process_file sysAll envZeroId false cfg "tok" "f.tar").1.take 2 =
      [searchCall defaultServer "Sample Dataset" none (some ["A. Researcher"]),
       createCall defaultServer "tok"] := by
  have h := claim_c10_falsy_id_create_path sysAll envZeroId false cfg "tok" "f.tar"
    "Sample Dataset" ["A. Researcher"]
    (.obj [("id", .num 0), ("links", .obj
      [("bucket", .str "https://sandbox.zenodo.org/api/files/bkt0"),
       ("html", .str "https://sandbox.zenodo.org/deposit/0")])]) []
    (.num 0) (.str "https://sandbox.zenodo.org/api/files/bkt0")
    "https://sandbox.zenodo.org/deposit/0" rfl rfl rfl rfl rfl
  exact ⟨rfl, h.1, h.2⟩
